import Mathlib

/-!
Verification of the worker base-agent core of `swebench-swarm`
(`src/implementation/worker/src/agents/base_agent.py` together with the data
model of `src/implementation/worker/src/models/types.py`).

The embedding is shallow: Python dataclasses become Lean structures, enum
classes become inductive types, floats become exact rationals (`ℚ`), and the
asynchronous methods become pure state-transition functions whose external
effects (HTTP requests, the specialized `_execute_task_impl`, the wall clock)
are supplied as explicit parameters describing their outcome.  Fields the
modelled code never reads (dict-typed metadata, datetime timestamps) are
omitted and noted at each structure.
-/

namespace SwarmAgent

/-- `AgentType` of `models/types.py` (closed enum of agent specialisations). -/
inductive AgentType
  | researcher
  | architect
  | coder
  | tester
  | reviewer
  | coordinator
deriving DecidableEq, Repr

/-- The `.value` string of each `AgentType` member. -/
def AgentType.value : AgentType → String
  | .researcher => "researcher"
  | .architect => "architect"
  | .coder => "coder"
  | .tester => "tester"
  | .reviewer => "reviewer"
  | .coordinator => "coordinator"

/-- `TaskStatus` of `models/types.py`. -/
inductive TaskStatus
  | pending
  | in_progress
  | completed
  | failed
  | cancelled
deriving DecidableEq, Repr

/-- `AgentStatus` of `models/types.py`. -/
inductive AgentStatus
  | idle
  | busy
  | error
  | offline
deriving DecidableEq, Repr

/-- The `.value` string of each `AgentStatus` member. -/
def AgentStatus.value : AgentStatus → String
  | .idle => "idle"
  | .busy => "busy"
  | .error => "error"
  | .offline => "offline"

/-- `SWEBenchProblem` of `models/types.py`, restricted to the fields the
base-agent code reads (`id`; the list/dict fields and `description` are
payload that `base_agent.py` only logs or passes through unchanged). -/
structure SWEBenchProblem where
  id : String
  description : String := ""
deriving DecidableEq, Repr

/-- `TaskContext` of `models/types.py`, restricted to the fields the
base-agent code reads (`task_id`, `problem`); the dependency /
environment / previous-results maps are opaque payload to `execute_task`. -/
structure TaskContext where
  task_id : String
  problem : SWEBenchProblem
deriving DecidableEq, Repr

/-- `TaskResult` of `models/types.py`.  `output : Any` becomes a type
parameter; the `metrics` dict and the `timestamp` datetime default are
omitted (never read by the modelled code). -/
structure TaskResult (α : Type) where
  task_id : String
  agent_id : String
  status : TaskStatus
  output : Option α := none
  error : Option String := none
  artifacts : List String := []
  execution_time : ℚ := 0
deriving DecidableEq, Repr

/-- `AgentPerformance` of `models/types.py`.  Python floats are modelled as
exact rationals; the `last_updated` datetime field (set to `datetime.now()`
by the update and never read back) is omitted. -/
structure AgentPerformance where
  tasks_completed : ℕ := 0
  success_rate : ℚ := 100
  average_time : ℚ := 0
  quality_score : ℚ := 100
deriving DecidableEq, Repr

/-- The freshly constructed `AgentPerformance()` default record. -/
def freshPerformance : AgentPerformance := {}

/-- `WorkerException` of `models/types.py` (message plus error code; the
`details` dict is omitted, it is always defaulted by the modelled code). -/
structure WorkerException where
  message : String
  code : String := "WORKER_ERROR"
deriving DecidableEq, Repr

/-- `TaskExecutionException` of `models/types.py`: carries the task id and
the message (its `code` is always `"TASK_EXECUTION_ERROR"`). -/
structure TaskExecutionException where
  task_id : String
  message : String
deriving DecidableEq, Repr

/-- Python `int(q)` on a float/rational: truncation toward zero. -/
def pythonInt (q : ℚ) : ℤ :=
  if 0 ≤ q then ⌊q⌋ else ⌈q⌉

/-- Python `round(q)` on a float/rational: round half to even
(banker's rounding). -/
def pythonRound (q : ℚ) : ℤ :=
  if q - ⌊q⌋ < 1/2 then ⌊q⌋
  else if 1/2 < q - ⌊q⌋ then ⌊q⌋ + 1
  else if ⌊q⌋ % 2 = 0 then ⌊q⌋ else ⌊q⌋ + 1

/-- `BaseAgent._update_performance_metrics` (base_agent.py lines 305-320),
translated statement by statement.  `success` and `execution_time` are the
Python arguments; the `last_updated = datetime.now()` assignment touches
only the omitted timestamp field.  Note the source derives the prior
success count with `int(...)` (truncation), not `round(...)`. -/
def updatePerformanceMetrics (perf : AgentPerformance) (success : Bool)
    (execution_time : ℚ) : AgentPerformance :=
  let tasks_completed : ℕ := perf.tasks_completed + 1
  let total_successes : ℤ :=
    pythonInt ((perf.success_rate / 100) * ((tasks_completed - 1 : ℕ) : ℚ))
  let total_successes : ℤ := if success then total_successes + 1 else total_successes
  let success_rate : ℚ := ((total_successes : ℚ) / (tasks_completed : ℚ)) * 100
  let total_time : ℚ := perf.average_time * ((tasks_completed : ℚ) - 1) + execution_time
  let average_time : ℚ := total_time / (tasks_completed : ℚ)
  { perf with
      tasks_completed := tasks_completed
      success_rate := success_rate
      average_time := average_time }

/-- Modelled from the spec (§4.1.1 of spec.md): the same performance update
but with the prior success count re-derived by `round(...)` as the spec's
pseudocode writes it, rather than the source's `int(...)`.  Used only to
compare the source algorithm against the spec's wording. -/
def updatePerformanceMetricsSpec (perf : AgentPerformance) (success : Bool)
    (execution_time : ℚ) : AgentPerformance :=
  let tasks_completed : ℕ := perf.tasks_completed + 1
  let prior_successes : ℤ :=
    pythonRound ((perf.success_rate / 100) * ((tasks_completed - 1 : ℕ) : ℚ))
  let prior_successes : ℤ := if success then prior_successes + 1 else prior_successes
  let success_rate : ℚ := ((prior_successes : ℚ) / (tasks_completed : ℚ)) * 100
  let total_time : ℚ := perf.average_time * ((tasks_completed : ℚ) - 1) + execution_time
  let average_time : ℚ := total_time / (tasks_completed : ℚ)
  { perf with
      tasks_completed := tasks_completed
      success_rate := success_rate
      average_time := average_time }

/-- Feed a history of `(success, execution_time)` attempts through the
source's update function, oldest first. -/
def runPerfUpdates (p : AgentPerformance) (hist : List (Bool × ℚ)) : AgentPerformance :=
  hist.foldl (fun q h => updatePerformanceMetrics q h.1 h.2) p

/-- Feed a history of `(success, execution_time)` attempts through the
spec-worded update function, oldest first. -/
def runPerfUpdatesSpec (p : AgentPerformance) (hist : List (Bool × ℚ)) : AgentPerformance :=
  hist.foldl (fun q h => updatePerformanceMetricsSpec q h.1 h.2) p

/-- The mutable state of one `BaseAgent` instance: the fields of
`self.agent` (`Agent` of `models/types.py`) that the base-agent methods
mutate or read, plus `self.current_task`, `self._running`, whether
`self._heartbeat_task` has been created, and whether the HTTP client has
been closed.  The immutable identity/capability fields are carried as
plain data (`id`, `type`). -/
structure AgentState where
  id : String
  type : AgentType := AgentType.coder
  status : AgentStatus := AgentStatus.idle
  performance : AgentPerformance := freshPerformance
  agent_current_task : Option String := none
  current_task : Option TaskContext := none
  running : Bool := false
  heartbeat_task : Bool := false
  http_closed : Bool := false
deriving DecidableEq, Repr

/-- Observable behaviour of one call to the abstract
`_execute_task_impl`: a normal return of the output, a raised `Exception`
(carrying its `str(e)`), or a raised `asyncio.CancelledError` (a
`BaseException` that the `except Exception` clause does not catch). -/
inductive ImplOutcome (α : Type)
  | ok (output : α)
  | fault (message : String)
  | cancelled
deriving DecidableEq, Repr

/-- Outcome of one `execute_task` call: a returned `TaskResult`, the raised
precondition `TaskExecutionException`, or a propagated cancellation. -/
inductive ExecOutcome (α : Type)
  | result (r : TaskResult α)
  | precondFault (e : TaskExecutionException)
  | cancelledFault
deriving DecidableEq, Repr

/-- The message of the precondition `TaskExecutionException`
(base_agent.py line 89). -/
def agentNotIdleMessage (s : AgentState) : String :=
  "Agent " ++ s.id ++ " is not idle (status: " ++ s.status.value ++ ")"

/-- The `finally` block of `execute_task` (base_agent.py lines 151-155):
clear `self.current_task`, reset `self.agent.status` to idle, clear
`self.agent.current_task`. -/
def resetAfterTask (s : AgentState) : AgentState :=
  { s with
      current_task := none
      status := AgentStatus.idle
      agent_current_task := none }

/-- `BaseAgent.execute_task` (base_agent.py lines 79-155).  `impl` is the
abstract `_execute_task_impl`; `t0` and `t1` are the wall-clock readings
`time.time()` takes at entry and at the success/fault point, so
`execution_time = t1 - t0`.  The reporting helpers
(`_report_task_started/_completed/_failed`) swallow every exception
internally (they wrap their bodies in `try/except` that only logs), so
they have no effect on the modelled state and cannot change control flow.
On the cancellation path the `except Exception` clause is skipped (a
`CancelledError` is a `BaseException`), the metrics are not updated, no
result is built, and the `finally` block still runs before the
cancellation propagates. -/
def executeTask {α : Type} (impl : TaskContext → ImplOutcome α)
    (t0 t1 : ℚ) (s : AgentState) (ctx : TaskContext) :
    ExecOutcome α × AgentState :=
  if s.status ≠ AgentStatus.idle then
    (ExecOutcome.precondFault ⟨ctx.task_id, agentNotIdleMessage s⟩, s)
  else
    let s1 : AgentState :=
      { s with
          current_task := some ctx
          status := AgentStatus.busy
          agent_current_task := some ctx.task_id }
    let execution_time : ℚ := t1 - t0
    match impl ctx with
    | ImplOutcome.ok out =>
        let s2 : AgentState :=
          { s1 with performance := updatePerformanceMetrics s1.performance true execution_time }
        let r : TaskResult α :=
          { task_id := ctx.task_id
            agent_id := s.id
            status := TaskStatus.completed
            output := some out
            execution_time := execution_time }
        (ExecOutcome.result r, resetAfterTask s2)
    | ImplOutcome.fault msg =>
        let s2 : AgentState :=
          { s1 with performance := updatePerformanceMetrics s1.performance false execution_time }
        let r : TaskResult α :=
          { task_id := ctx.task_id
            agent_id := s.id
            status := TaskStatus.failed
            error := some msg
            execution_time := execution_time }
        (ExecOutcome.result r, resetAfterTask s2)
    | ImplOutcome.cancelled =>
        (ExecOutcome.cancelledFault, resetAfterTask s1)

/-- One scripted `execute_task` call: the specialized implementation's
behaviour, the two clock readings, and the task context. -/
structure CallSpec (α : Type) where
  impl : TaskContext → ImplOutcome α
  t0 : ℚ
  t1 : ℚ
  ctx : TaskContext

/-- Run a sequence of `execute_task` calls, threading the agent state. -/
def runCalls {α : Type} (calls : List (CallSpec α)) (s : AgentState) : AgentState :=
  calls.foldl (fun st c => (executeTask c.impl c.t0 c.t1 st c.ctx).2) s

/-- The state invariant of spec.md §3: status busy iff a task context is
held, status idle iff none is held, and `self.agent.current_task` mirrors
the id of the held context. -/
def agentInv (s : AgentState) : Prop :=
  (s.status = AgentStatus.busy ↔ s.current_task ≠ none) ∧
  (s.status = AgentStatus.idle ↔ s.current_task = none) ∧
  s.agent_current_task = s.current_task.map TaskContext.task_id

instance (s : AgentState) : Decidable (agentInv s) := by
  unfold agentInv
  infer_instance

/-- The `WorkerException` raised by `_register_with_coordinator`
(base_agent.py line 231) when registration fails with cause `e`. -/
def workerRegistrationFailure (e : String) : WorkerException :=
  { message := "Failed to register with coordinator: " ++ e }

/-- `BaseAgent.start` (base_agent.py lines 36-52).  `reg` is the outcome of
the registration HTTP POST (`Except.error e` covers both a transport
exception and a non-2xx response, which `raise_for_status` turns into an
exception; `e` is its `str`).  `_initialize_claude_flow` swallows every
exception, so it has no modelled effect.  On registration failure
`_register_with_coordinator` re-raises a `WorkerException` wrapping the
cause and the heartbeat task is never created. -/
def start (reg : Except String Unit) (s : AgentState) :
    Except WorkerException Unit × AgentState :=
  let s1 : AgentState := { s with running := true, status := AgentStatus.idle }
  match reg with
  | Except.error e => (Except.error (workerRegistrationFailure e), s1)
  | Except.ok _ => (Except.ok (), { s1 with heartbeat_task := true })

/-- What one `stop` call did: whether it raised, and which task ids it
reported as cancelled. -/
structure StopOutcome where
  raised : Bool
  cancel_reports : List String
deriving DecidableEq, Repr

/-- `BaseAgent.stop` (base_agent.py lines 54-77).  `unreg` is the outcome
of the unregistration HTTP DELETE; `_unregister_from_coordinator` catches
every exception and only logs a warning, so `stop` never raises for it.
`_report_task_cancelled` runs a hook whose failures are swallowed, so the
cancellation report never raises either; note that `stop` reports a
cancellation whenever `self.current_task` is set but does not clear it.
Cancelling and awaiting the heartbeat task catches `CancelledError`, and
closing the HTTP client (`aclose`) is idempotent and does not raise. -/
def stop (_unreg : Except String Unit) (s : AgentState) :
    AgentState × StopOutcome :=
  let reports : List String :=
    match s.current_task with
    | some ctx => [ctx.task_id]
    | none => []
  ({ s with running := false, http_closed := true },
   { raised := false, cancel_reports := reports })

/-- `BaseAgent._send_heartbeat` (base_agent.py lines 258-280).  `post` is
the outcome of the heartbeat HTTP POST (error covers transport faults and
non-2xx via `raise_for_status`).  The whole body is wrapped in
`try/except Exception` that logs and does not re-raise, so the function
always returns normally; the returned list is the log entries it emitted. -/
def sendHeartbeat (post : Except String Unit) : List String × Except String Unit :=
  match post with
  | Except.ok _ => ([], Except.ok ())
  | Except.error e => (["Failed to send heartbeat: " ++ e], Except.ok ())

/-- Result of one iteration of the heartbeat loop: the loop exited, or it
continues after sleeping `delay` seconds, having emitted `logs`. -/
inductive HeartbeatStep
  | exited
  | continued (delay : ℚ) (logs : List String)
deriving DecidableEq, Repr

/-- One iteration of `BaseAgent._heartbeat_loop` (base_agent.py lines
246-256): exit if `self._running` is false; a `CancelledError` delivered
at an await point breaks the loop; otherwise send the heartbeat and sleep
`heartbeat_interval`, falling to the `except Exception` branch (sleep 5)
only if `_send_heartbeat` itself raised — which it never does, since it
swallows its own failures. -/
def heartbeatIteration (running : Bool) (interval : ℚ) (cancelRequested : Bool)
    (post : Except String Unit) : HeartbeatStep :=
  if running = false then HeartbeatStep.exited
  else if cancelRequested then HeartbeatStep.exited
  else
    match sendHeartbeat post with
    | (logs, Except.ok _) => HeartbeatStep.continued interval logs
    | (logs, Except.error _) => HeartbeatStep.continued 5 logs

/-! ### Concrete sample data used by witnesses and counterexamples -/

/-- A concrete benchmark problem. -/
def demoProblem : SWEBenchProblem := { id := "p1" }

/-- A concrete task context. -/
def demoCtx : TaskContext := { task_id := "t1", problem := demoProblem }

/-- A freshly started agent (all defaults: idle, no task, fresh metrics). -/
def idleDemoState : AgentState := { id := "a1" }

/-- An agent currently executing `demoCtx`. -/
def busyDemoState : AgentState :=
  { id := "a1"
    status := AgentStatus.busy
    agent_current_task := some "t1"
    current_task := some demoCtx }

/-- A specialized implementation that returns normally. -/
def okImpl : TaskContext → ImplOutcome String := fun _ => ImplOutcome.ok "done"

/-- A specialized implementation that raises an exception with
`str(e) = "boom"`. -/
def faultImpl : TaskContext → ImplOutcome Unit := fun _ => ImplOutcome.fault "boom"

/-- A specialized implementation that raises an exception whose string form
is empty, e.g. `raise ValueError()`. -/
def emptyFaultImpl : TaskContext → ImplOutcome Unit := fun _ => ImplOutcome.fault ""

/-! ### Helper lemmas for the performance-update algorithm -/

/-- Consistency of a performance record: the displayed rate times the task
count is one hundred times an exact (natural) success count.  The fresh
record satisfies it and every update preserves it; on such records the
re-derived prior success count is an exact integer. -/
def perfConsistent (p : AgentPerformance) : Prop :=
  ∃ k : ℕ, p.success_rate * (p.tasks_completed : ℚ) = 100 * k

theorem perfConsistent_fresh : perfConsistent freshPerformance :=
  ⟨0, by norm_num [freshPerformance]⟩

theorem pythonInt_natCast (k : ℕ) : pythonInt (k : ℚ) = k := by
  simp [pythonInt]

theorem pythonRound_natCast (k : ℕ) : pythonRound (k : ℚ) = k := by
  simp [pythonRound]

/-- On a consistent record the truncating source update and the rounding
spec update agree, and the update preserves consistency. -/
theorem update_eq_spec_of_consistent (p : AgentPerformance) (s : Bool) (t : ℚ)
    (h : perfConsistent p) :
    updatePerformanceMetrics p s t = updatePerformanceMetricsSpec p s t ∧
    perfConsistent (updatePerformanceMetrics p s t) := by
  obtain ⟨k, hk⟩ := h
  have hsub : (p.tasks_completed + 1 - 1 : ℕ) = p.tasks_completed := rfl
  have hval : (p.success_rate / 100) * ((p.tasks_completed + 1 - 1 : ℕ) : ℚ) = (k : ℚ) := by
    rw [hsub, div_mul_eq_mul_div, hk]
    norm_num
  constructor
  · simp only [updatePerformanceMetrics, updatePerformanceMetricsSpec, hval,
      pythonInt_natCast, pythonRound_natCast]
  · refine ⟨if s then k + 1 else k, ?_⟩
    simp only [updatePerformanceMetrics, hval, pythonInt_natCast]
    have hn : ((p.tasks_completed : ℚ) + 1) ≠ 0 := by positivity
    cases s <;> push_cast <;> field_simp <;> ring

/-- Folding any history through the source update equals folding it through
the spec-worded update, starting from any consistent record; consistency is
preserved along the fold. -/
theorem runPerfUpdates_eq_spec (hist : List (Bool × ℚ)) :
    ∀ p : AgentPerformance, perfConsistent p →
      runPerfUpdates p hist = runPerfUpdatesSpec p hist ∧
      perfConsistent (runPerfUpdates p hist) := by
  induction hist with
  | nil => exact fun p h => ⟨rfl, h⟩
  | cons hd tl ih =>
      intro p h
      obtain ⟨heq, hcons⟩ := update_eq_spec_of_consistent p hd.1 hd.2 h
      obtain ⟨heq2, hcons2⟩ := ih (updatePerformanceMetrics p hd.1 hd.2) hcons
      refine ⟨?_, hcons2⟩
      calc
        runPerfUpdates p (hd :: tl)
            = runPerfUpdates (updatePerformanceMetrics p hd.1 hd.2) tl := rfl
        _ = runPerfUpdatesSpec (updatePerformanceMetrics p hd.1 hd.2) tl := heq2
        _ = runPerfUpdatesSpec (updatePerformanceMetricsSpec p hd.1 hd.2) tl := by rw [heq]
        _ = runPerfUpdatesSpec p (hd :: tl) := rfl

/-! ### Claim theorems for the performance-update algorithm -/

/-- C4: the performance-metric update applied after every task attempt
(i.e. along any history fed to it starting from the fresh default record)
reproduces exactly the spec's incremental algorithm: tasks_completed is
incremented, prior successes are re-derived as
round(success_rate/100 * (tasks_completed - 1)) and incremented on
success, success_rate becomes prior_successes / tasks_completed * 100, and
average_time becomes
(average_time * (tasks_completed - 1) + execution_time) / tasks_completed.
(The source truncates with `int(...)` where the spec writes `round(...)`;
on every record reachable from the fresh default the re-derived value is
an exact integer, so the two coincide along every history.) -/
theorem c4_update_reproduces_spec_algorithm (hist : List (Bool × ℚ)) :
    runPerfUpdates freshPerformance hist = runPerfUpdatesSpec freshPerformance hist :=
  (runPerfUpdates_eq_spec hist freshPerformance perfConsistent_fresh).1

/-- C5: feeding the update function the sequence (success, 10),
(failure, 20), (success, 30) from the fresh record yields
tasks_completed = 3, average_time = 20, and success_rate exactly 200/3. -/
theorem c5_aggregate_correctness :
    (runPerfUpdates freshPerformance [(true, 10), (false, 20), (true, 30)]).tasks_completed = 3 ∧
    (runPerfUpdates freshPerformance [(true, 10), (false, 20), (true, 30)]).average_time = 20 ∧
    (runPerfUpdates freshPerformance [(true, 10), (false, 20), (true, 30)]).success_rate = 200 / 3 := by
  norm_num [runPerfUpdates, updatePerformanceMetrics, freshPerformance, pythonInt]

/-- C10: on the first update of a freshly constructed record the defaults
(success_rate 100 with tasks_completed 0) have no influence: the result is
exactly success_rate 100 on success and 0 on failure, and average_time is
exactly the supplied execution time. -/
theorem c10_first_update_ignores_defaults (success : Bool) (t : ℚ) :
    updatePerformanceMetrics freshPerformance success t =
      { tasks_completed := 1
        success_rate := if success then 100 else 0
        average_time := t
        quality_score := 100 } := by
  cases success <;> norm_num [updatePerformanceMetrics, freshPerformance, pythonInt]

/-! ### Helper lemmas for the task execution engine -/

/-- The `finally` block re-establishes the state invariant. -/
theorem agentInv_resetAfterTask (s : AgentState) : agentInv (resetAfterTask s) := by
  simp [agentInv, resetAfterTask]

/-- One `execute_task` call preserves the state invariant. -/
theorem executeTask_preserves_inv {α : Type} (impl : TaskContext → ImplOutcome α)
    (t0 t1 : ℚ) (s : AgentState) (ctx : TaskContext) (h : agentInv s) :
    agentInv (executeTask impl t0 t1 s ctx).2 := by
  by_cases hs : s.status = AgentStatus.idle
  · cases himpl : impl ctx <;>
      · simp only [executeTask, hs]
        simp [himpl, agentInv_resetAfterTask]
  · simpa [executeTask, hs] using h

/-- Under the idle precondition, the post-state of `execute_task` is the
reset state on every path. -/
theorem executeTask_resets {α : Type} (impl : TaskContext → ImplOutcome α)
    (t0 t1 : ℚ) (s : AgentState) (ctx : TaskContext)
    (hs : s.status = AgentStatus.idle) :
    (executeTask impl t0 t1 s ctx).2.current_task = none ∧
    (executeTask impl t0 t1 s ctx).2.status = AgentStatus.idle ∧
    (executeTask impl t0 t1 s ctx).2.agent_current_task = none := by
  cases himpl : impl ctx <;> simp [executeTask, hs, himpl, resetAfterTask]

/-- A sequence of `execute_task` calls preserves the state invariant. -/
theorem runCalls_preserves_inv {α : Type} (calls : List (CallSpec α)) :
    ∀ s : AgentState, agentInv s → agentInv (runCalls calls s) := by
  induction calls with
  | nil => exact fun s h => h
  | cons c tl ih =>
      intro s h
      exact ih (executeTask c.impl c.t0 c.t1 s c.ctx).2
        (executeTask_preserves_inv c.impl c.t0 c.t1 s c.ctx h)

/-! ### Claim theorems for the task execution engine -/

/-- C1: whenever the precondition holds (agent idle) and the specialized
implementation either returns normally or raises a fault, `execute_task`
returns a Task Result — completed with the returned output on success,
failed with the stringified error on a fault — and never propagates an
exception; the precondition violation is only ever raised when the agent
is not idle. -/
theorem c1_execute_task_total {α : Type} (impl : TaskContext → ImplOutcome α)
    (t0 t1 : ℚ) (s : AgentState) (ctx : TaskContext) :
    (s.status = AgentStatus.idle →
      (∀ out : α, impl ctx = ImplOutcome.ok out →
        (executeTask impl t0 t1 s ctx).1 = ExecOutcome.result
          { task_id := ctx.task_id
            agent_id := s.id
            status := TaskStatus.completed
            output := some out
            execution_time := t1 - t0 }) ∧
      (∀ msg : String, impl ctx = ImplOutcome.fault msg →
        (executeTask impl t0 t1 s ctx).1 = ExecOutcome.result
          { task_id := ctx.task_id
            agent_id := s.id
            status := TaskStatus.failed
            error := some msg
            execution_time := t1 - t0 })) ∧
    (∀ e : TaskExecutionException,
      (executeTask impl t0 t1 s ctx).1 = ExecOutcome.precondFault e →
        s.status ≠ AgentStatus.idle) := by
  constructor
  · intro hidle
    constructor
    · intro out hout
      simp [executeTask, hidle, hout]
    · intro msg hmsg
      simp [executeTask, hidle, hmsg]
  · intro e he hidle
    cases himpl : impl ctx <;> simp [executeTask, hidle, himpl] at he

/-- C1 witness: a successful run on concrete data, via the theorem. -/
theorem c1_witness :
    (executeTask okImpl 0 1 idleDemoState demoCtx).1 = ExecOutcome.result
      { task_id := "t1"
        agent_id := "a1"
        status := TaskStatus.completed
        output := some "done"
        execution_time := 1 - 0 } :=
  ((c1_execute_task_total okImpl 0 1 idleDemoState demoCtx).1 rfl).1 "done" rfl

/-- C2: the busy/idle ⇔ current-task invariant is preserved by every
`execute_task` call and hence along every sequence of calls, and on every
exit path from an accepted call the finally step leaves the agent with no
current task and status idle. -/
theorem c2_state_invariant {α : Type} :
    (∀ (impl : TaskContext → ImplOutcome α) (t0 t1 : ℚ) (s : AgentState) (ctx : TaskContext),
        agentInv s → agentInv (executeTask impl t0 t1 s ctx).2) ∧
    (∀ (impl : TaskContext → ImplOutcome α) (t0 t1 : ℚ) (s : AgentState) (ctx : TaskContext),
        s.status = AgentStatus.idle →
          (executeTask impl t0 t1 s ctx).2.current_task = none ∧
          (executeTask impl t0 t1 s ctx).2.status = AgentStatus.idle ∧
          (executeTask impl t0 t1 s ctx).2.agent_current_task = none) ∧
    (∀ (calls : List (CallSpec α)) (s : AgentState),
        agentInv s → agentInv (runCalls calls s)) :=
  ⟨fun impl t0 t1 s ctx h => executeTask_preserves_inv impl t0 t1 s ctx h,
   fun impl t0 t1 s ctx hs => executeTask_resets impl t0 t1 s ctx hs,
   fun calls s h => runCalls_preserves_inv calls s h⟩

/-- C2 witness: the invariant holds after a concrete sequence of calls. -/
theorem c2_witness :
    agentInv (runCalls [⟨okImpl, 0, 1, demoCtx⟩] idleDemoState) :=
  (@c2_state_invariant String).2.2 [⟨okImpl, 0, 1, demoCtx⟩] idleDemoState (by decide)

/-- C3: calling `execute_task` on a non-idle agent raises the
`TaskExecutionException` carrying the task id and a message naming the
agent's current status, leaves the whole agent state unchanged, and never
consults the specialized implementation (the call's value is independent of
the implementation and of the clock). -/
theorem c3_busy_precondition {α : Type} (impl impl' : TaskContext → ImplOutcome α)
    (t0 t1 t0' t1' : ℚ) (s : AgentState) (ctx : TaskContext)
    (h : s.status ≠ AgentStatus.idle) :
    (executeTask impl t0 t1 s ctx).1 =
      ExecOutcome.precondFault ⟨ctx.task_id, agentNotIdleMessage s⟩ ∧
    (executeTask impl t0 t1 s ctx).2 = s ∧
    executeTask impl t0 t1 s ctx = executeTask impl' t0' t1' s ctx := by
  simp [executeTask, h]

/-- C3 witness: a busy agent rejects a new task without state change, via
the theorem. -/
theorem c3_witness :
    (executeTask okImpl 0 1 busyDemoState demoCtx).1 =
      ExecOutcome.precondFault ⟨"t1", agentNotIdleMessage busyDemoState⟩ ∧
    (executeTask okImpl 0 1 busyDemoState demoCtx).2 = busyDemoState ∧
    executeTask okImpl 0 1 busyDemoState demoCtx =
      executeTask (fun _ => ImplOutcome.fault "x") 5 9 busyDemoState demoCtx :=
  c3_busy_precondition okImpl (fun _ => ImplOutcome.fault "x") 0 1 5 9
    busyDemoState demoCtx (by decide)

/-- C6 counterexample: a specialized implementation may raise an exception
whose string form is empty (e.g. `raise ValueError()`); the failed Task
Result then carries the empty error string, refuting the claim's
"non-empty error string" at this concrete input. -/
theorem c6_counterexample :
    (executeTask emptyFaultImpl 0 0 idleDemoState demoCtx).1 = ExecOutcome.result
      { task_id := "t1"
        agent_id := "a1"
        status := TaskStatus.failed
        output := (none : Option Unit)
        error := some ""
        execution_time := 0 } ∧
    ("" : String).length = 0 := by
  constructor
  · norm_num [executeTask, emptyFaultImpl, idleDemoState, demoCtx]
  · rfl

/-- C6 (amended): for every fault raised by the specialized implementation,
the returned Task Result has status failed, error set to the stringified
fault (non-empty exactly when the fault's string form is), output unset,
and execution_time equal to the clock delta, which is nonnegative whenever
the clock is monotone across the call. -/
theorem c6_failed_result_shape {α : Type} (impl : TaskContext → ImplOutcome α)
    (t0 t1 : ℚ) (s : AgentState) (ctx : TaskContext) (msg : String)
    (hidle : s.status = AgentStatus.idle) (himpl : impl ctx = ImplOutcome.fault msg)
    (hclock : t0 ≤ t1) :
    (executeTask impl t0 t1 s ctx).1 = ExecOutcome.result
      { task_id := ctx.task_id
        agent_id := s.id
        status := TaskStatus.failed
        output := none
        error := some msg
        execution_time := t1 - t0 } ∧
    0 ≤ t1 - t0 := by
  constructor
  · simp [executeTask, hidle, himpl]
  · linarith

/-- C6 witness: a concrete failing run, via the amended theorem. -/
theorem c6_witness :
    (executeTask faultImpl 0 1 idleDemoState demoCtx).1 = ExecOutcome.result
      { task_id := "t1"
        agent_id := "a1"
        status := TaskStatus.failed
        output := none
        error := some "boom"
        execution_time := 1 - 0 } ∧
    (0 : ℚ) ≤ 1 - 0 :=
  c6_failed_result_shape faultImpl 0 1 idleDemoState demoCtx "boom" rfl rfl
    zero_le_one

/-! ### Claim theorems for the agent lifecycle and heartbeat -/

/-- C7: if the coordinator registration request fails with any cause,
`start` raises the `WorkerException` wrapping that cause and the heartbeat
loop is never started. -/
theorem c7_registration_failure_fatal (reg : Except String Unit)
    (s : AgentState) (e : String)
    (hreg : reg = Except.error e) (hb : s.heartbeat_task = false) :
    (start reg s).1 = Except.error (workerRegistrationFailure e) ∧
    (start reg s).2.heartbeat_task = false := by
  subst hreg
  exact ⟨rfl, hb⟩

/-- C7 witness: a concrete non-2xx registration response, via the theorem. -/
theorem c7_witness :
    (start (Except.error "HTTP 500") idleDemoState).1 =
      Except.error (workerRegistrationFailure "HTTP 500") ∧
    (start (Except.error "HTTP 500") idleDemoState).2.heartbeat_task = false :=
  c7_registration_failure_fatal (Except.error "HTTP 500") idleDemoState
    "HTTP 500" rfl rfl

/-- C8 counterexample: with the default 30-second interval, a failed
heartbeat POST leads the loop to sleep the normal 30-second interval, not
the 5-second backoff the claim asserts — `_send_heartbeat` swallows the
failure internally, so the loop's `except` branch (the 5-second sleep)
never runs for a failed POST. -/
theorem c8_counterexample :
    heartbeatIteration true 30 false (Except.error "connection refused") =
      HeartbeatStep.continued 30 ["Failed to send heartbeat: connection refused"] ∧
    HeartbeatStep.continued (30 : ℚ) ["Failed to send heartbeat: connection refused"] ≠
      HeartbeatStep.continued (5 : ℚ) ["Failed to send heartbeat: connection refused"] := by
  refine ⟨rfl, ?_⟩
  intro hcontra
  have h30 : (30 : ℚ) = 5 := by injection hcontra
  norm_num at h30

/-- C8 (amended): a failed heartbeat POST is logged and swallowed inside
the heartbeat sender, which never raises; the loop does not terminate and
schedules the next tick after the normal configured interval (for every
interval and every failure cause), exactly as it does after a successful
tick. -/
theorem c8_amended_heartbeat_failure_behavior (interval : ℚ) (e : String) :
    (sendHeartbeat (Except.error e)).2 = Except.ok () ∧
    (sendHeartbeat (Except.error e)).1 = ["Failed to send heartbeat: " ++ e] ∧
    heartbeatIteration true interval false (Except.error e) =
      HeartbeatStep.continued interval ["Failed to send heartbeat: " ++ e] ∧
    heartbeatIteration true interval false (Except.ok ()) =
      HeartbeatStep.continued interval [] :=
  ⟨rfl, rfl, rfl, rfl⟩

/-- C9 counterexample: `stop` does not clear `self.current_task`, so when a
task is still registered as in flight, two successive `stop` calls each
emit a cancellation report for it — a duplicate report, refuting the claim
at this concrete state. -/
theorem c9_counterexample :
    (stop (Except.ok ()) busyDemoState).2.cancel_reports = ["t1"] ∧
    (stop (Except.ok ()) (stop (Except.ok ()) busyDemoState).1).2.cancel_reports = ["t1"] ∧
    (stop (Except.ok ()) busyDemoState).1.current_task = some demoCtx :=
  ⟨rfl, rfl, rfl⟩

/-- C9 (amended): `stop` never raises, whatever the unregistration or
resource-release outcome, on the first call and on the second; and when no
task is in flight at the first call, neither call emits a cancellation
report.  (`stop` does not itself clear `current_task`, so the no-duplicate
guarantee needs the in-flight task's finally block to have cleared it.) -/
theorem c9_amended_stop_idempotent (u1 u2 : Except String Unit) (s : AgentState) :
    (stop u1 s).2.raised = false ∧
    (stop u2 (stop u1 s).1).2.raised = false ∧
    (s.current_task = none →
      (stop u1 s).2.cancel_reports = [] ∧
      (stop u2 (stop u1 s).1).2.cancel_reports = []) := by
  refine ⟨rfl, rfl, fun h => ?_⟩
  constructor <;> simp [stop, h]

/-- C9 witness: two concrete `stop` calls with no task in flight, the
second with a failing unregistration, via the amended theorem. -/
theorem c9_witness :
    (stop (Except.ok ()) idleDemoState).2.cancel_reports = [] ∧
    (stop (Except.error "boom") (stop (Except.ok ()) idleDemoState).1).2.cancel_reports = [] :=
  (c9_amended_stop_idempotent (Except.ok ()) (Except.error "boom") idleDemoState).2.2 rfl

end SwarmAgent
